import Mathlib

/-!
Shallow embedding of the zugbruecke / pycrosscall sources.

Part 1 embeds `src/pycrosscall/routine_server.py` (server-side decoding of
portable type descriptions and routine type registration).

Part 2 embeds `src/src/zugbruecke/core/session_client.py` (library loading,
the server-status polling wait, and session termination).

Type description dicts carry one-letter keys in the source:
`f` (fundamental flag), `s` (struct flag), `p` (pointer flag),
`t` (type name), `n` (field name), `_fields_` (struct fields).
-/

/-- A portable type-description record, mirroring the Python dicts with keys
`f`, `s`, `p`, `t`, `n` and a `_fields_` list. -/
inductive TypeDict where
  | mk (f : Bool) (s : Bool) (p : Bool) (t : String) (n : String)
       (fields : List TypeDict)
  deriving Repr

def TypeDict.f : TypeDict → Bool
  | .mk f _ _ _ _ _ => f

def TypeDict.s : TypeDict → Bool
  | .mk _ s _ _ _ _ => s

def TypeDict.p : TypeDict → Bool
  | .mk _ _ p _ _ _ => p

def TypeDict.t : TypeDict → String
  | .mk _ _ _ t _ _ => t

def TypeDict.n : TypeDict → String
  | .mk _ _ _ _ n _ => n

def TypeDict.fields : TypeDict → List TypeDict
  | .mk _ _ _ _ _ fields => fields

/-- A ctypes-level type value on the server side: a named fundamental type
(an attribute of the `ctypes` module), a pointer type built with
`ctypes.POINTER`, or a synthesized `ctypes.Structure` subclass. -/
inductive CType where
  | c_named : String → CType
  | pointer : CType → CType
  | struct : String → List (String × CType) → CType
  deriving Repr

/-- Python-level errors raised during decoding: `AttributeError` from a failed
`getattr` (or a missing method), and `KeyError` from a dict lookup. -/
inductive PyError where
  | attributeError : String → PyError
  | keyError : PyError
  deriving Repr, DecidableEq

/-- The fundamental type names exported by the `ctypes` module. -/
def ctypes_names : List String :=
  ["c_bool", "c_char", "c_wchar", "c_byte", "c_ubyte", "c_short", "c_ushort",
   "c_int", "c_uint", "c_long", "c_ulong", "c_longlong", "c_ulonglong",
   "c_size_t", "c_ssize_t", "c_float", "c_double", "c_longdouble",
   "c_char_p", "c_wchar_p", "c_void_p", "c_int8", "c_uint8", "c_int16",
   "c_uint16", "c_int32", "c_uint32", "c_int64", "c_uint64"]

/-- `getattr(ctypes, t)`: yields the named type, or raises `AttributeError`. -/
def getattr_ctypes (t : String) : Except PyError CType :=
  if ctypes_names.contains t then .ok (.c_named t)
  else .error (.attributeError t)

/-- `routine_server_class.__unpack_type_fundamental_dict__`. -/
def unpack_type_fundamental_dict (d : TypeDict) : Except PyError CType :=
  if d.p then
    match getattr_ctypes d.t with
    | .ok c => .ok (.pointer c)
    | .error e => .error e
  else getattr_ctypes d.t

/-- The per-routine table `self.datatypes` of synthesized struct types,
keyed by portable struct name; assignment shadows like a Python dict. -/
abbrev Datatypes := List (String × CType)

/-- One iteration of the field loop in
`__unpack_type_struct_dict_generator__`: a fundamental field is decoded,
a struct field hits the missing method `self.__unpack_struct_dict__`
(an `AttributeError` at call time), and anything else falls back to
`ctypes.c_int`. -/
def unpack_struct_field (field : TypeDict) : Except PyError (String × CType) :=
  if field.f then
    match unpack_type_fundamental_dict field with
    | .ok c => .ok (field.n, c)
    | .error e => .error e
  else if field.s then
    .error (.attributeError "__unpack_struct_dict__")
  else
    .ok (field.n, .c_named "c_int")

/-- The field loop of `__unpack_type_struct_dict_generator__`; an error in
any field aborts before the struct class is generated. -/
def unpack_struct_fields : List TypeDict → Except PyError (List (String × CType))
  | [] => .ok []
  | field :: rest =>
    match unpack_struct_field field with
    | .error e => .error e
    | .ok pair =>
      match unpack_struct_fields rest with
      | .error e => .error e
      | .ok pairs => .ok (pair :: pairs)

/-- `routine_server_class.__unpack_type_struct_dict_generator__`: decode all
fields, then store `type(name, (ctypes.Structure,), {_fields_: fields})`
under the portable name.  Returns the updated table, or the table unchanged
together with the raised error. -/
def unpack_type_struct_dict_generator (st : Datatypes) (d : TypeDict) :
    Datatypes × Option PyError :=
  match unpack_struct_fields d.fields with
  | .error e => (st, some e)
  | .ok flds => ((d.t, .struct d.t flds) :: st, none)

/-- `routine_server_class.__unpack_type_struct_dict__`: generate the struct
class only if the name is not yet in `self.datatypes`, then return the stored
class, or a `ctypes.POINTER` to it when the pointer flag is set. -/
def unpack_type_struct_dict (st : Datatypes) (d : TypeDict) :
    Datatypes × Except PyError CType :=
  match (match st.lookup d.t with
         | none => unpack_type_struct_dict_generator st d
         | some _ => (st, none)) with
  | (st', some e) => (st', .error e)
  | (st', none) =>
    match st'.lookup d.t with
    | some c => (st', .ok (if d.p then .pointer c else c))
    | none => (st', .error .keyError)

/-- `routine_server_class.__unpack_type_dict__`: dispatch on the `f` and `s`
flags; the final branch is the source's `HACK TODO` fallback, which logs an
error message but returns `ctypes.c_int`. -/
def unpack_type_dict (st : Datatypes) (d : TypeDict) :
    Datatypes × Except PyError CType :=
  if d.f then (st, unpack_type_fundamental_dict d)
  else if d.s then unpack_type_struct_dict st d
  else (st, .ok (.c_named "c_int"))

/-- The list comprehension over `self.argtypes` in
`register_argtype_and_restype`, threading the datatypes table; an error
keeps the table as mutated by the elements already processed. -/
def unpack_type_dict_list (st : Datatypes) :
    List TypeDict → Datatypes × Except PyError (List CType)
  | [] => (st, .ok [])
  | d :: ds =>
    match unpack_type_dict st d with
    | (st', .error e) => (st', .error e)
    | (st', .ok c) =>
      match unpack_type_dict_list st' ds with
      | (st'', .error e) => (st'', .error e)
      | (st'', .ok cs) => (st'', .ok (c :: cs))

/-- Server-side state of one routine handle: the datatypes memo table, the
stored portable descriptions `self.argtypes` / `self.restype`, and the
native bindings `self.handler.argtypes` / `self.handler.restype`. -/
structure RoutineState where
  datatypes : Datatypes
  argtypes : Option (List TypeDict)
  restype : Option TypeDict
  handler_argtypes : Option (List CType)
  handler_restype : Option CType
  deriving Repr

/-- `routine_server_class.register_argtype_and_restype`, with Python's
mutation order made explicit: `self.argtypes` is assigned, then
`self.handler.argtypes`, then `self.restype`, then `self.handler.restype`;
an exception leaves every assignment already performed in place. -/
def register_argtype_and_restype (r : RoutineState)
    (argtypes : List TypeDict) (restype : TypeDict) :
    RoutineState × Option PyError :=
  let r1 := { r with argtypes := some argtypes }
  match unpack_type_dict_list r1.datatypes argtypes with
  | (dts, .error e) => ({ r1 with datatypes := dts }, some e)
  | (dts, .ok cs) =>
    let r2 := { r1 with datatypes := dts, handler_argtypes := some cs }
    let r3 := { r2 with restype := some restype }
    match unpack_type_dict r3.datatypes restype with
    | (dts2, .error e) => ({ r3 with datatypes := dts2 }, some e)
    | (dts2, .ok c) =>
      ({ r3 with datatypes := dts2, handler_restype := some c }, none)

/-!
Part 2: `src/src/zugbruecke/core/session_client.py`.
-/

/-- A client-side DLL handle (`dll_client_class(self, dll_name, dll_type,
hash_id)`); `obj_id` records the allocation order of the Python object, so
that identity of handles is expressible. -/
structure DllHandle where
  obj_id : Nat
  name : String
  conv : String
  hash_id : Nat
  deriving Repr, DecidableEq

/-- The `dll_param` dict; a `none` field models an absent key. -/
structure DllParam where
  mode : Option Nat
  use_errno : Option Bool
  use_last_error : Option Bool
  deriving Repr, DecidableEq

/-- The default-filling block of `load_library`: missing keys get
`mode = 0`, `use_errno = False`, `use_last_error = False`. -/
def fix_params (p : DllParam) : DllParam :=
  { mode := some (p.mode.getD 0),
    use_errno := some (p.use_errno.getD false),
    use_last_error := some (p.use_last_error.getD false) }

/-- The closed set of calling-convention kinds accepted by `load_library`. -/
def dll_types : List String := ["cdll", "windll", "oledll"]

/-- The part of the session-client state that `load_library` touches:
`self.dll_dict`, plus a trace of the names shipped to the guest via
`self.rpc_client.load_library` and a counter for fresh handle objects. -/
structure LibSessionState where
  dll_dict : List (String × DllHandle)
  guest_loads : List String
  next_obj_id : Nat
  deriving Repr, DecidableEq

/-- Errors raised by `load_library`: the `ValueError("unknown dll type")`
for a bad convention kind, and the re-raised `OSError` from the guest. -/
inductive LoadError where
  | unknown_convention
  | os_error
  deriving Repr, DecidableEq

/-- `session_client_class.load_library`.  The guest RPC is abstracted as
`rpc_load`, returning a server-side hash id or an `OSError`.  An existing
entry in `dll_dict` is returned before the convention kind is validated;
otherwise the kind is checked, defaults are filled in, the guest loads the
library, and a fresh handle object is stored and returned. -/
def load_library (rpc_load : String → String → DllParam → Except Unit Nat)
    (s : LibSessionState) (dll_name dll_type : String) (dll_param : DllParam) :
    LibSessionState × Except LoadError DllHandle :=
  match s.dll_dict.lookup dll_name with
  | some h => (s, .ok h)
  | none =>
    if dll_types.contains dll_type then
      match rpc_load dll_name dll_type (fix_params dll_param) with
      | .error _ => (s, .error .os_error)
      | .ok hash_id =>
        let h : DllHandle :=
          { obj_id := s.next_obj_id, name := dll_name, conv := dll_type,
            hash_id := hash_id }
        ({ dll_dict := (dll_name, h) :: s.dll_dict,
           guest_loads := s.guest_loads ++ [dll_name],
           next_obj_id := s.next_obj_id + 1 }, .ok h)
    else (s, .error .unknown_convention)

/-- The polling step of `__wait_for_server_status_change__`,
`wait_for_seconds = 0.01` seconds. -/
def wait_for_seconds : ℚ := 1 / 100

/-- Session timeout configuration: `self.p["timeout_start"]` and
`self.p["timeout_stop"]`, in seconds. -/
structure WaitConfig where
  timeout_start : ℚ
  timeout_stop : ℚ
  deriving Repr, DecidableEq

/-- Outcome of the wait: normal return, or the raised `TimeoutError`; both
record how many 0.01-second sleeps were performed. -/
inductive WaitResult where
  | ok (sleeps : Nat)
  | timeout (sleeps : Nat)
  deriving Repr, DecidableEq

/-- The `while target_status != self.server_up` loop.  `statusAt k` is the
value of `self.server_up` observed after `k` sleeps (it is set concurrently
by the server through the reverse RPC channel).  `k` counts sleeps done so
far and `r` is the number of further full iterations permitted before the
`time.time() >= started_waiting_at + timeout_after_seconds` check breaks the
loop; the function returns the total number of sleeps performed. -/
def wait_loop (target : Bool) (statusAt : Nat → Bool) :
    Nat → Nat → Nat
  | k, r =>
    if statusAt k = target then k
    else
      match r with
      | 0 => k + 1
      | r' + 1 => wait_loop target statusAt (k + 1) r'

/-- `session_client_class.__wait_for_server_status_change__`.  If the status
already equals the target, return at once without sleeping.  Otherwise poll
in `wait_for_seconds` increments; after `s` sleeps the clock reads
`s * wait_for_seconds`, and the loop breaks once that reaches the timeout
(`timeout_start` when waiting for up, `timeout_stop` when waiting for
down), i.e. once `s ≥ ⌈timeout * 100⌉₊`; after the loop, a status still
differing from the target raises `TimeoutError`. -/
def wait_for_server_status_change (p : WaitConfig) (statusAt : Nat → Bool)
    (target : Bool) : WaitResult :=
  if target = statusAt 0 then .ok 0
  else
    let timeout_after_seconds : ℚ :=
      if target then p.timeout_start else p.timeout_stop
    let timeoutCs : Nat := ⌈timeout_after_seconds * 100⌉₊
    let sleeps := wait_loop target statusAt 0 (timeoutCs - 1)
    if statusAt sleeps = target then .ok sleeps else .timeout sleeps

/-- Teardown actions performed by `terminate`, in order. -/
inductive TermAction where
  | rpc_terminate
  | wait_down
  | interpreter_terminate
  | rpc_server_terminate
  | log_terminate
  deriving Repr, DecidableEq

/-- The part of the session state that `terminate` reads and writes. -/
structure TermState where
  up : Bool
  stage : Nat
  deriving Repr, DecidableEq

/-- `session_client_class.terminate`.  If the session is already down it
returns at once with no actions.  In stage 2 it sends `terminate` to the
guest, waits for the server to go down (a `TimeoutError` from the wait
propagates, leaving `self.up` untouched), and tears down the interpreter;
in every successful run it then terminates the callback RPC server and the
log and clears `self.up`.  `statusAt` is the observed `self.server_up`
sequence during the down-wait. -/
def terminate (p : WaitConfig) (statusAt : Nat → Bool) (s : TermState) :
    TermState × List TermAction × Option Unit :=
  if s.up = false then (s, [], none)
  else if s.stage = 2 then
    match wait_for_server_status_change p statusAt false with
    | .timeout _ => (s, [.rpc_terminate], some ())
    | .ok _ =>
      ({ s with up := false },
       [.rpc_terminate, .wait_down, .interpreter_terminate,
        .rpc_server_terminate, .log_terminate], none)
  else
    ({ s with up := false }, [.rpc_server_terminate, .log_terminate], none)

/-!
Concrete type descriptions used by witnesses and counterexamples.
-/

/-- A struct description `pt` with one fundamental `c_int` field `x`. -/
def struct_pt_v1 : TypeDict :=
  .mk false true false "pt" "" [.mk true false false "c_int" "x" []]

/-- A second struct description reusing the name `pt` but with a different
field list (one `c_double` field `y`). -/
def struct_pt_v2 : TypeDict :=
  .mk false true false "pt" "" [.mk true false false "c_double" "y" []]

/-- The type synthesized for `struct_pt_v1`. -/
def struct_pt_type : CType := .struct "pt" [("x", .c_named "c_int")]

/-- A fundamental description naming `c_long`. -/
def old_restype_dict : TypeDict := .mk true false false "c_long" "" []

/-- A fundamental description naming `c_int`. -/
def new_argtype_dict : TypeDict := .mk true false false "c_int" "" []

/-- A fundamental description whose name is not a `ctypes` attribute, so
decoding it raises `AttributeError`. -/
def bad_restype_dict : TypeDict := .mk true false false "c_nonsense" "" []

/-- A routine state with a previously bound `argtypes`/`restype` pair. -/
def routine_before : RoutineState :=
  { datatypes := []
    argtypes := some [old_restype_dict]
    restype := some old_restype_dict
    handler_argtypes := some [.c_named "c_long"]
    handler_restype := some (.c_named "c_long") }

/-!
Helper lemmas about struct decoding.
-/

/-- Decoding a struct description whose name is already in the table returns
the stored entry without touching the table. -/
theorem unpack_struct_lookup_some (st : Datatypes) (d : TypeDict) (b : CType)
    (h : st.lookup d.t = some b) :
    unpack_type_struct_dict st d =
      (st, .ok (if d.p then CType.pointer b else b)) := by
  unfold unpack_type_struct_dict
  rw [h]
  simp only [h]

/-- Decoding a struct description whose name is fresh and whose fields all
decode generates the struct class, stores it, and returns it. -/
theorem unpack_struct_fresh_ok (st : Datatypes) (d : TypeDict)
    (flds : List (String × CType)) (hl : st.lookup d.t = none)
    (hfs : unpack_struct_fields d.fields = .ok flds) :
    unpack_type_struct_dict st d =
      ((d.t, CType.struct d.t flds) :: st,
       .ok (if d.p then CType.pointer (CType.struct d.t flds)
            else CType.struct d.t flds)) := by
  unfold unpack_type_struct_dict unpack_type_struct_dict_generator
  rw [hl, hfs]
  simp [List.lookup]

/-- Decoding a struct description whose name is fresh propagates a field
error and leaves the table unchanged. -/
theorem unpack_struct_fresh_err (st : Datatypes) (d : TypeDict) (e : PyError)
    (hl : st.lookup d.t = none)
    (hfs : unpack_struct_fields d.fields = .error e) :
    unpack_type_struct_dict st d = (st, .error e) := by
  unfold unpack_type_struct_dict unpack_type_struct_dict_generator
  rw [hl, hfs]

/-- A successful struct decode leaves the portable name bound in the table,
and the returned value is that entry (or a pointer to it). -/
theorem unpack_struct_ok_memo (st st' : Datatypes) (d : TypeDict) (c : CType)
    (h : unpack_type_struct_dict st d = (st', .ok c)) :
    ∃ b, st'.lookup d.t = some b ∧ c = (if d.p then CType.pointer b else b) := by
  cases hl : st.lookup d.t with
  | some b =>
    rw [unpack_struct_lookup_some st d b hl] at h
    simp only [Prod.mk.injEq, Except.ok.injEq] at h
    obtain ⟨h1, h2⟩ := h
    subst h1
    exact ⟨b, hl, h2.symm⟩
  | none =>
    cases hfs : unpack_struct_fields d.fields with
    | error e =>
      rw [unpack_struct_fresh_err st d e hl hfs] at h
      simp at h
    | ok flds =>
      rw [unpack_struct_fresh_ok st d flds hl hfs] at h
      simp only [Prod.mk.injEq, Except.ok.injEq] at h
      obtain ⟨h1, h2⟩ := h
      subst h1
      exact ⟨CType.struct d.t flds, by simp [List.lookup], h2.symm⟩

/-- Each decoded struct field keeps the declared field name. -/
theorem unpack_struct_field_name (f : TypeDict) (pair : String × CType)
    (h : unpack_struct_field f = .ok pair) : pair.1 = f.n := by
  unfold unpack_struct_field at h
  split at h
  · cases hf : unpack_type_fundamental_dict f with
    | ok c => rw [hf] at h; cases h; rfl
    | error e => rw [hf] at h; cases h
  · split at h
    · cases h
    · cases h; rfl

/-- The field loop preserves the declared field names in order. -/
theorem unpack_struct_fields_names (fs : List TypeDict)
    (flds : List (String × CType)) (h : unpack_struct_fields fs = .ok flds) :
    flds.map Prod.fst = fs.map TypeDict.n := by
  induction fs generalizing flds with
  | nil =>
    unfold unpack_struct_fields at h
    cases h
    rfl
  | cons f rest ih =>
    unfold unpack_struct_fields at h
    cases hf : unpack_struct_field f with
    | error e => rw [hf] at h; cases h
    | ok pair =>
      rw [hf] at h
      cases hr : unpack_struct_fields rest with
      | error e => rw [hr] at h; cases h
      | ok pairs =>
        rw [hr] at h
        cases h
        simp [unpack_struct_field_name f pair hf, ih pairs hr]

/-!
Claim theorems for the routine-server type decoding.
-/

/-- C1: the spec demands that a type-description record whose kind tag is
neither fundamental nor struct raise a `type_unsupported` error; the code
instead substitutes `ctypes.c_int` — both in `__unpack_type_dict__` and for
a struct field in `__unpack_type_struct_dict_generator__`.  This theorem
evaluates both decoders at such a record and shows the plain-integer
fallback, refuting the claimed error behaviour of the code (the bug is in
the code, which marks these branches `HACK TODO`). -/
theorem c1_unhandled_type_substitutes_c_int :
    unpack_type_dict [] (.mk false false false "c_int_ptr_ptr" "" []) =
      ([], .ok (.c_named "c_int"))
    ∧ unpack_type_struct_dict_generator []
        (.mk false true false "S" ""
          [.mk false false true "c_int_ptr_ptr" "x" []]) =
      ([("S", .struct "S" [("x", .c_named "c_int")])], none) :=
  ⟨rfl, rfl⟩

/-- C2 counterexample: after decoding struct `pt` with field list
`[x : c_int]`, decoding a struct description with the same name `pt` but a
different field list `[y : c_double]` does NOT fail with `type_conflict`:
it silently returns the previously synthesized type and leaves the table
unchanged. -/
theorem c2_counterexample :
    unpack_type_struct_dict [] struct_pt_v1 =
      ([("pt", struct_pt_type)], .ok struct_pt_type)
    ∧ unpack_type_struct_dict [("pt", struct_pt_type)] struct_pt_v2 =
      ([("pt", struct_pt_type)], .ok struct_pt_type)
    ∧ struct_pt_v1.t = struct_pt_v2.t
    ∧ struct_pt_v1.fields.map TypeDict.t ≠ struct_pt_v2.fields.map TypeDict.t :=
  ⟨rfl, rfl, rfl, by decide⟩

/-- C2 (amended): once a struct type description with a given name has been
decoded in a session, decoding any second struct description with the same
name — even with a different field list — does not raise any error: it
silently returns the previously synthesized type from the per-routine
datatypes table, leaving the table unchanged. -/
theorem c2_duplicate_struct_name_silently_memoized
    (st st' : Datatypes) (d1 d2 : TypeDict) (c1 : CType)
    (hname : d2.t = d1.t)
    (h1 : unpack_type_struct_dict st d1 = (st', .ok c1)) :
    ∃ b, st'.lookup d2.t = some b ∧
      unpack_type_struct_dict st' d2 =
        (st', .ok (if d2.p then CType.pointer b else b)) := by
  obtain ⟨b, hb, -⟩ := unpack_struct_ok_memo st st' d1 c1 h1
  have hb2 : st'.lookup d2.t = some b := by rw [hname]; exact hb
  exact ⟨b, hb2, unpack_struct_lookup_some st' d2 b hb2⟩

/-- C2 witness: the amended theorem applied to the concrete structs `pt`
with differing field lists. -/
theorem c2_witness :
    ∃ b, List.lookup struct_pt_v2.t
        ([("pt", struct_pt_type)] : Datatypes) = some b ∧
      unpack_type_struct_dict [("pt", struct_pt_type)] struct_pt_v2 =
        ([("pt", struct_pt_type)],
         .ok (if struct_pt_v2.p then CType.pointer b else b)) :=
  c2_duplicate_struct_name_silently_memoized [] [("pt", struct_pt_type)]
    struct_pt_v1 struct_pt_v2 struct_pt_type rfl rfl

/-- C4 counterexample: rebinding with a good argument-type list but a
return-type description naming a nonexistent `ctypes` attribute fails, yet
leaves the routine with the NEW native argtypes binding while the native
restype binding keeps its OLD value — the mixed state the claim says is
never observable. -/
theorem c4_counterexample :
    (register_argtype_and_restype routine_before
        [new_argtype_dict] bad_restype_dict).2 =
      some (.attributeError "c_nonsense")
    ∧ (register_argtype_and_restype routine_before
        [new_argtype_dict] bad_restype_dict).1.handler_argtypes =
      some [.c_named "c_int"]
    ∧ routine_before.handler_argtypes = some [.c_named "c_long"]
    ∧ (register_argtype_and_restype routine_before
        [new_argtype_dict] bad_restype_dict).1.handler_restype =
      some (.c_named "c_long")
    ∧ routine_before.handler_restype = some (.c_named "c_long") :=
  ⟨rfl, rfl, rfl, rfl, rfl⟩

/-- C4 (amended): `register_argtype_and_restype` is not atomic.  If the
argument types decode but decoding the return type raises, the error
propagates with the new argtypes already installed (both the stored
description and the native handler binding) and the new restype description
stored, while the native handler's restype keeps its previous value. -/
theorem c4_register_partial_on_restype_failure
    (r : RoutineState) (ats : List TypeDict) (rt : TypeDict)
    (dts dts2 : Datatypes) (cs : List CType) (e : PyError)
    (hargs : unpack_type_dict_list r.datatypes ats = (dts, .ok cs))
    (hrt : unpack_type_dict dts rt = (dts2, .error e)) :
    register_argtype_and_restype r ats rt =
      ({ datatypes := dts2, argtypes := some ats, restype := some rt,
         handler_argtypes := some cs, handler_restype := r.handler_restype },
       some e) := by
  unfold register_argtype_and_restype
  simp only [hargs, hrt]

/-- C4 witness: the amended theorem applied to a concrete routine state and
a failing return-type description. -/
theorem c4_witness :
    register_argtype_and_restype routine_before
        [new_argtype_dict] bad_restype_dict =
      ({ datatypes := [], argtypes := some [new_argtype_dict],
         restype := some bad_restype_dict,
         handler_argtypes := some [.c_named "c_int"],
         handler_restype := some (.c_named "c_long") },
       some (.attributeError "c_nonsense")) :=
  c4_register_partial_on_restype_failure routine_before [new_argtype_dict]
    bad_restype_dict [] [] [.c_named "c_int"] (.attributeError "c_nonsense")
    rfl rfl

/-- C5: within one session, decoding two struct type descriptions carrying
the same portable struct name (and the same pointer flag) yields the
identical synthesized type object, and the second decode leaves the
per-routine datatypes table unchanged — struct decoding is memoized by
name. -/
theorem c5_struct_decode_memoized_identical
    (st st' : Datatypes) (d1 d2 : TypeDict) (c1 : CType)
    (hname : d2.t = d1.t) (hp : d2.p = d1.p)
    (h1 : unpack_type_struct_dict st d1 = (st', .ok c1)) :
    unpack_type_struct_dict st' d2 = (st', .ok c1) := by
  obtain ⟨b, hb, hc⟩ := unpack_struct_ok_memo st st' d1 c1 h1
  have hb2 : st'.lookup d2.t = some b := by rw [hname]; exact hb
  rw [unpack_struct_lookup_some st' d2 b hb2, hp, ← hc]

/-- C5 witness: decoding the concrete struct description `pt` a second time
returns exactly the type synthesized the first time. -/
theorem c5_witness :
    unpack_type_struct_dict [("pt", struct_pt_type)] struct_pt_v1 =
      ([("pt", struct_pt_type)], .ok struct_pt_type) :=
  c5_struct_decode_memoized_identical [] [("pt", struct_pt_type)]
    struct_pt_v1 struct_pt_v1 struct_pt_type rfl rfl rfl

/-- C6: a successfully synthesized struct type lists its fields in exactly
the order of the `_fields_` list of the description — decoding neither
reorders, drops, nor duplicates fields. -/
theorem c6_struct_fields_order_preserved (st st' : Datatypes) (d : TypeDict)
    (h : unpack_type_struct_dict_generator st d = (st', none)) :
    ∃ flds, st' = (d.t, CType.struct d.t flds) :: st
      ∧ flds.map Prod.fst = d.fields.map TypeDict.n := by
  unfold unpack_type_struct_dict_generator at h
  cases hfs : unpack_struct_fields d.fields with
  | error e => rw [hfs] at h; simp at h
  | ok flds =>
    rw [hfs] at h
    simp only [Prod.mk.injEq] at h
    exact ⟨flds, h.1.symm, unpack_struct_fields_names d.fields flds hfs⟩

/-- C6 witness: the field-order theorem applied to the concrete struct
description `pt`. -/
theorem c6_witness :
    ∃ flds, ([("pt", struct_pt_type)] : Datatypes) =
        (struct_pt_v1.t, CType.struct struct_pt_v1.t flds) :: []
      ∧ flds.map Prod.fst = struct_pt_v1.fields.map TypeDict.n :=
  c6_struct_fields_order_preserved [] [("pt", struct_pt_type)]
    struct_pt_v1 rfl

/-!
Concrete session data used by part-2 witnesses.
-/

/-- A guest RPC stub that loads every library under hash id 42. -/
def demo_rpc : String → String → DllParam → Except Unit Nat :=
  fun _ _ _ => .ok 42

/-- A fresh session with no libraries loaded. -/
def demo_state0 : LibSessionState :=
  { dll_dict := [], guest_loads := [], next_obj_id := 0 }

/-- The handle created by the first load of `demo.dll`. -/
def demo_handle : DllHandle :=
  { obj_id := 0, name := "demo.dll", conv := "cdll", hash_id := 42 }

/-- The session state after the first load of `demo.dll`. -/
def demo_state1 : LibSessionState :=
  { dll_dict := [("demo.dll", demo_handle)], guest_loads := ["demo.dll"],
    next_obj_id := 1 }

/-- A parameter dict with no keys set. -/
def demo_param : DllParam :=
  { mode := none, use_errno := none, use_last_error := none }

/-- A timeout configuration: `timeout_start` of 0.03 seconds. -/
def demo_wait_config : WaitConfig :=
  { timeout_start := 3 / 100, timeout_stop := 1 }

/-!
Helper lemmas for part 2.
-/

/-- If the status never reaches the target while the loop runs, the loop
performs all `r + 1` permitted sleeps and exits on the timeout check. -/
theorem wait_loop_never (target : Bool) (statusAt : Nat → Bool) (k r : Nat)
    (hnever : ∀ j, j ≤ k + r + 1 → statusAt j ≠ target) :
    wait_loop target statusAt k r = k + r + 1 := by
  induction r generalizing k with
  | zero =>
    unfold wait_loop
    rw [if_neg (hnever k (by omega))]
  | succ r' ih =>
    unfold wait_loop
    rw [if_neg (hnever k (by omega))]
    dsimp only
    rw [ih (k + 1) (fun j hj => hnever j (by omega))]
    omega

/-- `terminate` on a session that is already down does nothing. -/
theorem terminate_down (p : WaitConfig) (statusAt : Nat → Bool)
    (s : TermState) (h : s.up = false) :
    terminate p statusAt s = (s, [], none) := by
  unfold terminate
  rw [if_pos h]

/-!
Claim theorems for the session client.
-/

/-- C3: for every library name not yet in the session table, a successful
`load_library` stores the new handle, ships exactly one load of that name
to the guest, and every further `load_library` of the same name — with any
convention kind, parameters, or guest channel — returns the very same
handle with the session state unchanged (so the guest is never asked to
load the library a second time). -/
theorem c3_load_library_idempotent
    (rpc rpc2 : String → String → DllParam → Except Unit Nat)
    (s s' : LibSessionState) (n k : String) (p : DllParam) (h : DllHandle)
    (hfresh : s.dll_dict.lookup n = none)
    (hfirst : load_library rpc s n k p = (s', .ok h)) :
    (∀ k2 p2, load_library rpc2 s' n k2 p2 = (s', .ok h))
    ∧ s'.guest_loads = s.guest_loads ++ [n] := by
  unfold load_library at hfirst
  rw [hfresh] at hfirst
  dsimp only at hfirst
  split at hfirst
  · cases hr : rpc n k (fix_params p) with
    | error u =>
      rw [hr] at hfirst
      exact absurd hfirst (by simp)
    | ok hid =>
      rw [hr] at hfirst
      simp only [Prod.mk.injEq, Except.ok.injEq] at hfirst
      obtain ⟨hs, hh⟩ := hfirst
      subst hs
      subst hh
      constructor
      · intro k2 p2
        unfold load_library
        simp [List.lookup]
      · rfl
  · exact absurd hfirst (by simp)

/-- C3 witness: loading `demo.dll` once and then again with different
arguments returns the original handle and leaves the state unchanged. -/
theorem c3_witness :
    (∀ k2 p2, load_library demo_rpc demo_state1 "demo.dll" k2 p2 =
        (demo_state1, .ok demo_handle))
    ∧ demo_state1.guest_loads = demo_state0.guest_loads ++ ["demo.dll"] :=
  c3_load_library_idempotent demo_rpc demo_rpc demo_state0 demo_state1
    "demo.dll" "cdll" demo_param demo_handle rfl rfl

/-- C7: for a library name not previously loaded, `load_library` with a
convention kind outside the closed set `{cdll, windll, oledll}` fails with
the unknown-convention error and leaves the session's library table (the
whole state) unchanged. -/
theorem c7_unknown_convention_rejected
    (rpc : String → String → DllParam → Except Unit Nat)
    (s : LibSessionState) (n k : String) (p : DllParam)
    (hfresh : s.dll_dict.lookup n = none)
    (hk : dll_types.contains k = false) :
    load_library rpc s n k p = (s, .error .unknown_convention) := by
  unfold load_library
  rw [hfresh]
  dsimp only
  rw [hk]
  simp only [Bool.false_eq_true, if_false]

/-- C7 witness: loading `demo.dll` with the kind `fastcall` fails with
`unknown_convention` and adds no entry. -/
theorem c7_witness :
    load_library demo_rpc demo_state0 "demo.dll" "fastcall" demo_param =
      (demo_state0, .error .unknown_convention) :=
  c7_unknown_convention_rejected demo_rpc demo_state0 "demo.dll" "fastcall"
    demo_param rfl rfl

/-- C8: the session-ready wait polls in `wait_for_seconds = 0.01`-second
increments; if the status is already at the target it returns immediately
with zero sleeps; and if the status has not reached the target at any poll
within the configured timeout (`timeout_start` when waiting for up,
`timeout_stop` when waiting for down), it raises `TimeoutError` after
exhausting the `⌈timeout * 100⌉` polling steps. -/
theorem c8_wait_poll_and_timeout (p : WaitConfig) (statusAt : Nat → Bool)
    (target : Bool)
    (hnever : ∀ j,
      j ≤ (⌈(if target then p.timeout_start else p.timeout_stop) * 100⌉₊ - 1) + 1 →
      statusAt j ≠ target) :
    wait_for_seconds = 1 / 100
    ∧ (∀ st0 : Nat → Bool, st0 0 = target →
        wait_for_server_status_change p st0 target = .ok 0)
    ∧ wait_for_server_status_change p statusAt target =
        .timeout
          ((⌈(if target then p.timeout_start else p.timeout_stop) * 100⌉₊ - 1) + 1) := by
  refine ⟨rfl, ?_, ?_⟩
  · intro st0 h0
    unfold wait_for_server_status_change
    rw [if_pos h0.symm]
  · unfold wait_for_server_status_change
    rw [if_neg (fun hh => hnever 0 (by omega) hh.symm)]
    dsimp only
    rw [wait_loop_never target statusAt 0 _ (fun j hj => hnever j (by omega))]
    simp only [Nat.zero_add]
    rw [if_neg (hnever _ (by omega))]

/-- C8 witness: with a 0.03-second `timeout_start` and a server that never
comes up, the wait times out after three polls; a server already up is
returned immediately. -/
theorem c8_witness :
    wait_for_seconds = 1 / 100
    ∧ (∀ st0 : Nat → Bool, st0 0 = true →
        wait_for_server_status_change demo_wait_config st0 true = .ok 0)
    ∧ wait_for_server_status_change demo_wait_config (fun _ => false) true =
        .timeout 3 := by
  have h := c8_wait_poll_and_timeout demo_wait_config (fun _ => false) true
    (fun j hj => by simp)
  refine ⟨h.1, h.2.1, ?_⟩
  rw [h.2.2]
  norm_num [demo_wait_config]

/-- C9: `terminate` is idempotent — after one successful call the session's
`up` flag is false, and every subsequent call returns immediately with no
shutdown actions (no second RPC terminate, interpreter, endpoint, or log
teardown). -/
theorem c9_terminate_idempotent (p : WaitConfig) (statusAt : Nat → Bool)
    (s s' : TermState) (acts : List TermAction)
    (hfirst : terminate p statusAt s = (s', acts, none)) :
    s'.up = false ∧ ∀ p2 st2, terminate p2 st2 s' = (s', [], none) := by
  have hup : s'.up = false := by
    unfold terminate at hfirst
    split at hfirst
    next hdown =>
      simp only [Prod.mk.injEq] at hfirst
      obtain ⟨h1, -⟩ := hfirst
      subst h1
      exact hdown
    next =>
      split at hfirst
      next =>
        split at hfirst
        next => simp at hfirst
        next =>
          simp only [Prod.mk.injEq] at hfirst
          obtain ⟨h1, -⟩ := hfirst
          subst h1
          rfl
      next =>
        simp only [Prod.mk.injEq] at hfirst
        obtain ⟨h1, -⟩ := hfirst
        subst h1
        rfl
  exact ⟨hup, fun p2 st2 => terminate_down p2 st2 s' hup⟩

/-- C9 witness: terminating a stage-1 session that is up clears the flag,
and a second terminate does nothing. -/
theorem c9_witness :
    TermState.up { up := false, stage := 1 } = false
    ∧ ∀ p2 st2, terminate p2 st2 { up := false, stage := 1 } =
        ({ up := false, stage := 1 }, [], none) :=
  c9_terminate_idempotent demo_wait_config (fun _ => false)
    { up := true, stage := 1 } { up := false, stage := 1 }
    [.rpc_server_terminate, .log_terminate] rfl

/-- C10: when a library name is already in the session table,
`load_library` returns the stored handle before validating the convention
kind: it succeeds for every kind `k` and parameter dict `p` — both are
ignored — and the state is unchanged. -/
theorem c10_existing_name_skips_validation
    (rpc : String → String → DllParam → Except Unit Nat)
    (s : LibSessionState) (n : String) (h : DllHandle)
    (hmem : s.dll_dict.lookup n = some h) :
    ∀ k p, load_library rpc s n k p = (s, .ok h) := by
  intro k p
  unfold load_library
  rw [hmem]

/-- C10 witness: re-loading `demo.dll` with a kind outside the closed
convention set still returns the original handle. -/
theorem c10_witness :
    load_library demo_rpc demo_state1 "demo.dll" "not_a_convention"
        demo_param = (demo_state1, .ok demo_handle)
    ∧ dll_types.contains "not_a_convention" = false :=
  ⟨c10_existing_name_skips_validation demo_rpc demo_state1 "demo.dll"
      demo_handle rfl "not_a_convention" demo_param,
   rfl⟩
